import Mathlib

/-!
Verification of the grid-based e-ink dashboard pipeline.

The development shallowly embeds the layout/render core of the repository:
the grid geometry (`computeBounds`), the layout loader of the flexible
generator (`loadLayout`), the data-enrichment step (`enrichLayoutWithData`),
the generation orchestration (`generateDashboard`), and the daily Pokemon
id (`getDailyPokemonId`).  Pixel arithmetic uses exact rationals, so the
fractional cell sizes of the grid algorithm are represented without any
rounding policy.  The functions of `dashboard-engine.js` (grid system,
component rendering) are not among the available source files; those
definitions are modelled from the specification text and say so in their
doc comments.
-/

namespace EInk

/-- Grid specification of a layout document: row and column counts, outer
margin and inter-cell gap, both in pixels. -/
structure GridSpec where
  rows : ℕ
  cols : ℕ
  margin : ℚ
  gap : ℚ
deriving DecidableEq, Repr, Inhabited

/-- A component's declared position on the grid: zero-based row/column index
and the number of rows/columns it spans. -/
structure Placement where
  row : ℕ
  col : ℕ
  rowSpan : ℕ
  colSpan : ℕ
deriving DecidableEq, Repr, Inhabited

/-- A resolved pixel rectangle, the output of the grid system. -/
structure Bounds where
  x : ℚ
  y : ℚ
  width : ℚ
  height : ℚ
deriving DecidableEq, Repr

/-- Fatal layout-definition errors: an out-of-bounds placement or an
unregistered component type. -/
inductive LayoutError where
  | PlacementOutOfBounds
  | UnknownComponentType (t : String)
deriving DecidableEq, Repr

/-- The grid invariant for one placement: `row + rowSpan ≤ rows` and
`col + colSpan ≤ cols`. -/
def placementInBounds (g : GridSpec) (p : Placement) : Bool :=
  decide (p.row + p.rowSpan ≤ g.rows) && decide (p.col + p.colSpan ≤ g.cols)

/-- Modelled from the spec: the uniform cell size of one axis,
`(canvasSize - 2*margin - (n-1)*gap) / n`.  The grid system lives in
`dashboard-engine.js`, which is not among the available source files. -/
def cellSize (canvas margin gap : ℚ) (n : ℕ) : ℚ :=
  (canvas - 2 * margin - ((n - 1 : ℕ) : ℚ) * gap) / (n : ℚ)

/-- Modelled from the spec: the grid-system contract
`computeBounds(gridSpec, canvasSize, placement) → Bounds` of
`dashboard-engine.js`, which is not among the available source files (only
its documentation and its callers are).  A spanning component's pixel size
is `span*cellSize + (span-1)*gap`, its origin is
`margin + index*(cellSize+gap)`, and a placement that violates the grid
invariant is rejected with `LayoutError.PlacementOutOfBounds`. -/
def computeBounds (g : GridSpec) (canvasW canvasH : ℚ) (p : Placement) :
    Except LayoutError Bounds :=
  if placementInBounds g p then
    Except.ok
      { x := g.margin + (p.col : ℚ) * (cellSize canvasW g.margin g.gap g.cols + g.gap)
        y := g.margin + (p.row : ℚ) * (cellSize canvasH g.margin g.gap g.rows + g.gap)
        width := (p.colSpan : ℚ) * cellSize canvasW g.margin g.gap g.cols +
          ((p.colSpan - 1 : ℕ) : ℚ) * g.gap
        height := (p.rowSpan : ℚ) * cellSize canvasH g.margin g.gap g.rows +
          ((p.rowSpan - 1 : ℕ) : ℚ) * g.gap }
  else Except.error LayoutError.PlacementOutOfBounds

theorem span_cellSize (canvas margin gap : ℚ) (n : ℕ) (hn : 0 < n) :
    (n : ℚ) * cellSize canvas margin gap n + ((n - 1 : ℕ) : ℚ) * gap =
      canvas - 2 * margin := by
  have hn0 : ((n : ℚ)) ≠ 0 := Nat.cast_ne_zero.mpr hn.ne'
  have hcast : ((n - 1 : ℕ) : ℚ) = (n : ℚ) - 1 := by
    rw [Nat.cast_sub hn]
    norm_num
  unfold cellSize
  rw [hcast]
  field_simp

/-- C1. Tiling exactness: for every valid GridSpec and canvas size, the
full-grid placement `{row := 0, col := 0, rowSpan := rows, colSpan := cols}`
resolves to exactly `{x := margin, y := margin,
width := canvasW - 2*margin, height := canvasH - 2*margin}`. -/
theorem computeBounds_full_grid (g : GridSpec) (W H : ℚ)
    (hr : 0 < g.rows) (hc : 0 < g.cols) (_hm : 0 ≤ g.margin) (_hg : 0 ≤ g.gap) :
    computeBounds g W H ⟨0, 0, g.rows, g.cols⟩ =
      Except.ok ⟨g.margin, g.margin, W - 2 * g.margin, H - 2 * g.margin⟩ := by
  unfold computeBounds
  rw [if_pos]
  · simp only [Except.ok.injEq, Bounds.mk.injEq, Nat.cast_zero]
    refine ⟨by ring, by ring, ?_, ?_⟩
    · exact span_cellSize W g.margin g.gap g.cols hc
    · exact span_cellSize H g.margin g.gap g.rows hr
  · simp [placementInBounds]

/-- C1 witness: the spec's worked example, a 2×2 grid with margin 10 and
gap 5 on a 210×210 canvas. -/
theorem computeBounds_full_grid_witness :
    computeBounds ⟨2, 2, 10, 5⟩ 210 210 ⟨0, 0, 2, 2⟩ =
      Except.ok ⟨10, 10, 190, 190⟩ := by
  have h := computeBounds_full_grid ⟨2, 2, 10, 5⟩ 210 210 (by decide) (by decide)
    (by norm_num) (by norm_num)
  rw [h]
  norm_num

/-- Resolving a placement that satisfies the grid invariant yields the
bounds given by the spec's origin and span formulas. -/
theorem computeBounds_ok (g : GridSpec) (W H : ℚ) (p : Placement)
    (h : placementInBounds g p = true) :
    computeBounds g W H p = Except.ok
      { x := g.margin + (p.col : ℚ) * (cellSize W g.margin g.gap g.cols + g.gap)
        y := g.margin + (p.row : ℚ) * (cellSize H g.margin g.gap g.rows + g.gap)
        width := (p.colSpan : ℚ) * cellSize W g.margin g.gap g.cols +
          ((p.colSpan - 1 : ℕ) : ℚ) * g.gap
        height := (p.rowSpan : ℚ) * cellSize H g.margin g.gap g.rows +
          ((p.rowSpan - 1 : ℕ) : ℚ) * g.gap } := by
  unfold computeBounds
  rw [if_pos h]

/-- C5. `computeBounds` fails with `LayoutError.PlacementOutOfBounds` exactly
when the placement violates `row + rowSpan ≤ rows` or `col + colSpan ≤ cols`;
every placement satisfying both constraints is not rejected with this
error (it resolves to bounds). -/
theorem computeBounds_out_of_bounds_iff (g : GridSpec) (W H : ℚ) (p : Placement) :
    computeBounds g W H p = Except.error LayoutError.PlacementOutOfBounds ↔
      ¬ (p.row + p.rowSpan ≤ g.rows ∧ p.col + p.colSpan ≤ g.cols) := by
  unfold computeBounds placementInBounds
  by_cases h : p.row + p.rowSpan ≤ g.rows ∧ p.col + p.colSpan ≤ g.cols
  · simp [h.1, h.2]
  · rcases Decidable.not_and_iff_or_not.mp h with h1 | h1 <;> simp [h1, h]

/-- C6. Adjacent single cells: two single-cell placements in the same row at
columns `c` and `c+1` of a valid grid resolve to bounds whose x-ranges are
disjoint (the first ends before the second begins) and separated by exactly
`gap` pixels. -/
theorem computeBounds_adjacent_cells (g : GridSpec) (W H : ℚ) (r c : ℕ)
    (_hr : 0 < g.rows) (_hc : 0 < g.cols) (_hm : 0 ≤ g.margin) (hg : 0 ≤ g.gap)
    (hrow : r + 1 ≤ g.rows) (hcol : c + 2 ≤ g.cols) :
    ∃ b₁ b₂ : Bounds,
      computeBounds g W H ⟨r, c, 1, 1⟩ = Except.ok b₁ ∧
      computeBounds g W H ⟨r, c + 1, 1, 1⟩ = Except.ok b₂ ∧
      b₁.x + b₁.width ≤ b₂.x ∧
      b₂.x - (b₁.x + b₁.width) = g.gap := by
  have hp1 : placementInBounds g ⟨r, c, 1, 1⟩ = true := by
    simp only [placementInBounds, Bool.and_eq_true, decide_eq_true_eq]
    omega
  have hp2 : placementInBounds g ⟨r, c + 1, 1, 1⟩ = true := by
    simp only [placementInBounds, Bool.and_eq_true, decide_eq_true_eq]
    omega
  refine ⟨_, _, computeBounds_ok g W H _ hp1, computeBounds_ok g W H _ hp2, ?_, ?_⟩
  · simp only [Nat.cast_one, Nat.cast_add]
    have h0 : ((1 - 1 : ℕ) : ℚ) = 0 := by norm_num
    rw [h0]
    ring_nf
    nlinarith [hg]
  · simp only [Nat.cast_one, Nat.cast_add]
    have h0 : ((1 - 1 : ℕ) : ℚ) = 0 := by norm_num
    rw [h0]
    ring

/-- C6 witness: adjacent cells in row 0, columns 0 and 1 of the 2×2 example
grid are separated by exactly the 5-pixel gap. -/
theorem computeBounds_adjacent_cells_witness :
    ∃ b₁ b₂ : Bounds,
      computeBounds ⟨2, 2, 10, 5⟩ 210 210 ⟨0, 0, 1, 1⟩ = Except.ok b₁ ∧
      computeBounds ⟨2, 2, 10, 5⟩ 210 210 ⟨0, 1, 1, 1⟩ = Except.ok b₂ ∧
      b₁.x + b₁.width ≤ b₂.x ∧
      b₂.x - (b₁.x + b₁.width) = (5 : ℚ) :=
  computeBounds_adjacent_cells ⟨2, 2, 10, 5⟩ 210 210 0 0 (by decide) (by decide)
    (by norm_num) (by norm_num) (by decide) (by decide)

/-- The shape of the injected weather data (temperature, condition,
forecast lines), as the weather service formats it. -/
structure WeatherData where
  temperature : ℤ
  condition : String
  forecast : List String
deriving DecidableEq, Repr

/-- The shape of the injected device statistics (battery, wifi, uptime
fields), as `DeviceStats.formatStatsForDashboard` formats them. -/
structure DeviceStatsData where
  battery : String
  wifi : String
  uptime : String
deriving DecidableEq, Repr

/-- The shape of the injected Pokemon data, as
`PokemonService.formatPokemonForDashboard` produces it: id, name,
display name, an optional sprite path (`null` when the sprite could not be
obtained), the data source and the sprite-availability flag. -/
structure PokemonData where
  id : ℕ
  name : String
  displayName : String
  spritePath : Option String
  source : String
  hasSprite : Bool
deriving DecidableEq, Repr

/-- A configuration value: the JSON scalars a layout document uses plus the
three structured data objects the orchestrator injects.  `null` models the
JavaScript `null` that a failed fetch leaves behind. -/
inductive Value where
  | null
  | bool (b : Bool)
  | num (n : ℤ)
  | str (s : String)
  | strList (xs : List String)
  | weather (w : WeatherData)
  | device (d : DeviceStatsData)
  | pokemon (p : PokemonData)
deriving DecidableEq, Repr

/-- A component configuration: a JavaScript object modelled as an ordered
list of key/value pairs without duplicate keys. -/
abbrev Config := List (String × Value)

/-- Property access `cfg[k]`: the value of the first binding of `k`. -/
def lookupKey (cfg : Config) (k : String) : Option Value :=
  match cfg with
  | [] => none
  | kv :: rest => if kv.1 = k then some kv.2 else lookupKey rest k

/-- The JavaScript object spread `{...cfg, k: v}`: if `k` is already bound
its value is replaced in place, otherwise the binding is appended. -/
def objSet (cfg : Config) (k : String) (v : Value) : Config :=
  if (lookupKey cfg k).isSome then
    cfg.map (fun kv => if kv.1 = k then (k, v) else kv)
  else cfg ++ [(k, v)]

theorem lookupKey_objSet_self (cfg : Config) (k : String) (v : Value) :
    lookupKey (objSet cfg k v) k = some v := by
  unfold objSet
  by_cases h : (lookupKey cfg k).isSome
  · rw [if_pos h]
    induction cfg with
    | nil => simp [lookupKey] at h
    | cons kv rest ih =>
      by_cases hk : kv.1 = k
      · simp [lookupKey, hk]
      · simp only [lookupKey, hk, if_false, Option.isSome] at h
        simp only [List.map_cons, if_neg hk, lookupKey, hk, if_false]
        exact ih h
  · rw [if_neg h]
    induction cfg with
    | nil => simp [lookupKey]
    | cons kv rest ih =>
      by_cases hk : kv.1 = k
      · simp [lookupKey, hk, Option.isSome] at h
      · simp only [lookupKey, hk, if_false, Option.isSome] at h
        simp only [List.cons_append, lookupKey, hk, if_false]
        exact ih h

theorem lookupKey_map_set (cfg : Config) (k k' : String) (v : Value)
    (h : k' ≠ k) :
    lookupKey (cfg.map (fun kv => if kv.1 = k then (k, v) else kv)) k' =
      lookupKey cfg k' := by
  induction cfg with
  | nil => rfl
  | cons kv rest ih =>
    by_cases hk : kv.1 = k
    · have hne : kv.1 ≠ k' := by rw [hk]; exact Ne.symm h
      simp only [List.map_cons, if_pos hk, lookupKey, if_neg (Ne.symm h),
        if_neg hne]
      exact ih
    · simp only [List.map_cons, if_neg hk, lookupKey]
      by_cases hk' : kv.1 = k'
      · rw [if_pos hk', if_pos hk']
      · rw [if_neg hk', if_neg hk']
        exact ih

theorem lookupKey_append_single (cfg : Config) (k k' : String) (v : Value)
    (h : k' ≠ k) :
    lookupKey (cfg ++ [(k, v)]) k' = lookupKey cfg k' := by
  induction cfg with
  | nil => simp [lookupKey, Ne.symm h]
  | cons kv rest ih =>
    simp only [List.cons_append, lookupKey]
    by_cases hk' : kv.1 = k'
    · rw [if_pos hk', if_pos hk']
    · rw [if_neg hk', if_neg hk']
      exact ih

theorem lookupKey_objSet_other (cfg : Config) (k k' : String) (v : Value)
    (h : k' ≠ k) :
    lookupKey (objSet cfg k v) k' = lookupKey cfg k' := by
  unfold objSet
  by_cases hs : (lookupKey cfg k).isSome
  · rw [if_pos hs]
    exact lookupKey_map_set cfg k k' v h
  · rw [if_neg hs]
    exact lookupKey_append_single cfg k k' v h

/-- One entry of a layout document's component list: a type tag, a grid
placement and a configuration object. -/
structure Component where
  type : String
  position : Placement
  config : Config
deriving DecidableEq, Repr, Inhabited

/-- A layout document: name, description, grid specification and the
ordered component list. -/
structure LayoutDocument where
  name : String
  description : String
  grid : GridSpec
  components : List Component
deriving DecidableEq, Repr, Inhabited

/-- The body of the `map` in `FlexibleDashboardGenerator.enrichLayoutWithData`:
a `device-stats` component's config receives the key `deviceStats`, a
`weather` component's config the key `weatherData`, a `pokemon-sprite`
component's config the key `pokemonData`; every other component is returned
unchanged. -/
def enrichComponent (deviceStatsData weatherData pokemonData : Value)
    (c : Component) : Component :=
  if c.type = "device-stats" then
    { c with config := objSet c.config "deviceStats" deviceStatsData }
  else if c.type = "weather" then
    { c with config := objSet c.config "weatherData" weatherData }
  else if c.type = "pokemon-sprite" then
    { c with config := objSet c.config "pokemonData" pokemonData }
  else c

/-- Translated from `FlexibleDashboardGenerator.enrichLayoutWithData`: deep
clone the layout configuration and map `enrichComponent` over its component
list. -/
def enrichLayoutWithData (layoutConfig : LayoutDocument)
    (deviceStatsData weatherData pokemonData : Value) : LayoutDocument :=
  { layoutConfig with
      components := layoutConfig.components.map
        (enrichComponent deviceStatsData weatherData pokemonData) }

theorem enrichComponent_type (d w p : Value) (c : Component) :
    (enrichComponent d w p c).type = c.type := by
  unfold enrichComponent
  split_ifs <;> rfl

theorem enrichComponent_position (d w p : Value) (c : Component) :
    (enrichComponent d w p c).position = c.position := by
  unfold enrichComponent
  split_ifs <;> rfl

/-- C7 (amended). Enrichment injects each pre-fetched data object into the
config of every component whose type requires external data, under the
well-known key of that type: `deviceStats` for `device-stats`,
`weatherData` for `weather`, and `pokemonData` (not `spritePath`) for
`pokemon-sprite`; the component list the engine then renders is exactly
this enriched list, position by position. -/
theorem enrichLayoutWithData_injects_wellKnownKeys (doc : LayoutDocument)
    (d w p : Value) (i : ℕ) (h : i < doc.components.length) :
    ∃ h2 : i < (enrichLayoutWithData doc d w p).components.length,
      ((enrichLayoutWithData doc d w p).components.get ⟨i, h2⟩ =
        enrichComponent d w p (doc.components.get ⟨i, h⟩)) ∧
      ((doc.components.get ⟨i, h⟩).type = "device-stats" →
        lookupKey ((enrichLayoutWithData doc d w p).components.get ⟨i, h2⟩).config
          "deviceStats" = some d) ∧
      ((doc.components.get ⟨i, h⟩).type = "weather" →
        lookupKey ((enrichLayoutWithData doc d w p).components.get ⟨i, h2⟩).config
          "weatherData" = some w) ∧
      ((doc.components.get ⟨i, h⟩).type = "pokemon-sprite" →
        lookupKey ((enrichLayoutWithData doc d w p).components.get ⟨i, h2⟩).config
          "pokemonData" = some p) := by
  have h2 : i < (enrichLayoutWithData doc d w p).components.length := by
    simpa [enrichLayoutWithData] using h
  refine ⟨h2, ?_, ?_, ?_, ?_⟩
  · simp [enrichLayoutWithData]
  · intro ht
    simp only [List.get_eq_getElem] at ht ⊢
    simp only [enrichLayoutWithData, List.getElem_map, enrichComponent, ht]
    rw [if_true]
    exact lookupKey_objSet_self _ _ _
  · intro ht
    simp only [List.get_eq_getElem] at ht ⊢
    simp only [enrichLayoutWithData, List.getElem_map, enrichComponent, ht]
    rw [if_true]
    exact lookupKey_objSet_self _ _ _
  · intro ht
    simp only [List.get_eq_getElem] at ht ⊢
    simp only [enrichLayoutWithData, List.getElem_map, enrichComponent, ht]
    rw [if_true]
    exact lookupKey_objSet_self _ _ _

/-- A sample injected Pokemon payload for the C7 counterexample. -/
def samplePokemonValue : Value :=
  Value.pokemon
    { id := 25, name := "Pikachu", displayName := "#25",
      spritePath := some "cache/pokemon/pokemon_25_eink.png",
      source := "cache", hasSprite := true }

/-- The layout of the C7 counterexample: one `pokemon-sprite` component at
the documented top-right position. -/
def pokemonLayoutExample : LayoutDocument :=
  { name := "weather-pokemon", description := "pokemon corner",
    grid := ⟨12, 8, 15, 8⟩,
    components :=
      [{ type := "pokemon-sprite", position := ⟨1, 6, 3, 2⟩,
         config := [("showNumber", Value.bool true)] }] }

/-- C7 counterexample: enriching a `pokemon-sprite` component stores the
injected data under the key `pokemonData`; the key `spritePath` named by the
claim is not bound in the enriched config at all. -/
theorem enrich_pokemon_spritePath_counterexample :
    lookupKey ((enrichLayoutWithData pokemonLayoutExample Value.null Value.null
        samplePokemonValue).components.headI.config) "spritePath" = none ∧
    lookupKey ((enrichLayoutWithData pokemonLayoutExample Value.null Value.null
        samplePokemonValue).components.headI.config) "pokemonData" =
      some samplePokemonValue := by
  constructor <;> rfl

/-- C7 witness: the amended injection property evaluated on the concrete
one-component pokemon layout. -/
theorem enrichLayoutWithData_injects_wellKnownKeys_witness :
    ∃ h2 : 0 < (enrichLayoutWithData pokemonLayoutExample Value.null Value.null
        samplePokemonValue).components.length,
      ((enrichLayoutWithData pokemonLayoutExample Value.null Value.null
          samplePokemonValue).components.get ⟨0, h2⟩ =
        enrichComponent Value.null Value.null samplePokemonValue
          (pokemonLayoutExample.components.get ⟨0, by decide⟩)) ∧
      ((pokemonLayoutExample.components.get ⟨0, by decide⟩).type = "device-stats" →
        lookupKey ((enrichLayoutWithData pokemonLayoutExample Value.null Value.null
          samplePokemonValue).components.get ⟨0, h2⟩).config "deviceStats" =
          some Value.null) ∧
      ((pokemonLayoutExample.components.get ⟨0, by decide⟩).type = "weather" →
        lookupKey ((enrichLayoutWithData pokemonLayoutExample Value.null Value.null
          samplePokemonValue).components.get ⟨0, h2⟩).config "weatherData" =
          some Value.null) ∧
      ((pokemonLayoutExample.components.get ⟨0, by decide⟩).type = "pokemon-sprite" →
        lookupKey ((enrichLayoutWithData pokemonLayoutExample Value.null Value.null
          samplePokemonValue).components.get ⟨0, h2⟩).config "pokemonData" =
          some samplePokemonValue) :=
  enrichLayoutWithData_injects_wellKnownKeys pokemonLayoutExample Value.null
    Value.null samplePokemonValue 0 (by decide)

/-- C10. Frame property of the enrichment step: components whose type is not
`device-stats`, `weather` or `pokemon-sprite` are returned identical to the
input; for the three enriched types, the type tag, the placement and every
config key other than the single injected one are unchanged.  (The
enrichment is a pure function of the deep-cloned document: the input
document itself is left untouched.) -/
theorem enrichLayoutWithData_frame (doc : LayoutDocument) (d w p : Value)
    (i : ℕ) (h : i < doc.components.length) :
    ∃ h2 : i < (enrichLayoutWithData doc d w p).components.length,
      ((doc.components.get ⟨i, h⟩).type ≠ "device-stats" →
        (doc.components.get ⟨i, h⟩).type ≠ "weather" →
        (doc.components.get ⟨i, h⟩).type ≠ "pokemon-sprite" →
        (enrichLayoutWithData doc d w p).components.get ⟨i, h2⟩ =
          doc.components.get ⟨i, h⟩) ∧
      ((enrichLayoutWithData doc d w p).components.get ⟨i, h2⟩).type =
        (doc.components.get ⟨i, h⟩).type ∧
      ((enrichLayoutWithData doc d w p).components.get ⟨i, h2⟩).position =
        (doc.components.get ⟨i, h⟩).position ∧
      ((doc.components.get ⟨i, h⟩).type = "device-stats" →
        ∀ k : String, k ≠ "deviceStats" →
          lookupKey ((enrichLayoutWithData doc d w p).components.get ⟨i, h2⟩).config k =
            lookupKey (doc.components.get ⟨i, h⟩).config k) ∧
      ((doc.components.get ⟨i, h⟩).type = "weather" →
        ∀ k : String, k ≠ "weatherData" →
          lookupKey ((enrichLayoutWithData doc d w p).components.get ⟨i, h2⟩).config k =
            lookupKey (doc.components.get ⟨i, h⟩).config k) ∧
      ((doc.components.get ⟨i, h⟩).type = "pokemon-sprite" →
        ∀ k : String, k ≠ "pokemonData" →
          lookupKey ((enrichLayoutWithData doc d w p).components.get ⟨i, h2⟩).config k =
            lookupKey (doc.components.get ⟨i, h⟩).config k) := by
  have h2 : i < (enrichLayoutWithData doc d w p).components.length := by
    simpa [enrichLayoutWithData] using h
  refine ⟨h2, ?_, ?_, ?_, ?_, ?_, ?_⟩
  · intro h1 hw hp
    simp only [List.get_eq_getElem] at h1 hw hp
    simp [enrichLayoutWithData, enrichComponent, h1, hw, hp]
  · simp only [enrichLayoutWithData, List.get_eq_getElem, List.getElem_map]
    exact enrichComponent_type d w p _
  · simp only [enrichLayoutWithData, List.get_eq_getElem, List.getElem_map]
    exact enrichComponent_position d w p _
  · intro ht k hk
    simp only [List.get_eq_getElem] at ht ⊢
    simp only [enrichLayoutWithData, List.getElem_map, enrichComponent, ht]
    rw [if_true]
    exact lookupKey_objSet_other _ _ _ _ hk
  · intro ht k hk
    simp only [List.get_eq_getElem] at ht ⊢
    simp only [enrichLayoutWithData, List.getElem_map, enrichComponent, ht]
    rw [if_true]
    exact lookupKey_objSet_other _ _ _ _ hk
  · intro ht k hk
    simp only [List.get_eq_getElem] at ht ⊢
    simp only [enrichLayoutWithData, List.getElem_map, enrichComponent, ht]
    rw [if_true]
    exact lookupKey_objSet_other _ _ _ _ hk

/-- The component types registered with the dashboard engine. -/
def registeredTypes : List String :=
  ["clock", "date", "stats", "title", "weather", "device-stats", "pokemon-sprite"]

/-- Modelled from the spec: the list of layout-definition errors of a
document, one per unregistered component type and one per out-of-bounds
placement.  No available source file computes such an aggregate — this
definition only serves to count a document's independent validation
errors. -/
def validationErrors (doc : LayoutDocument) : List LayoutError :=
  doc.components.foldr
    (fun c acc =>
      (if registeredTypes.contains c.type then []
        else [LayoutError.UnknownComponentType c.type]) ++
      (if placementInBounds doc.grid c.position then []
        else [LayoutError.PlacementOutOfBounds]) ++ acc)
    []

/-- Translated from `FlexibleDashboardGenerator.loadLayout`: the layouts
directory is modelled as a map from layout name to `none` (no such file),
`some none` (file exists but is not valid JSON) or `some (some doc)` (file
parses to `doc`).  The function throws on a missing or unparseable file and
otherwise returns the parsed document as-is. -/
def loadLayout (files : String → Option (Option LayoutDocument))
    (layoutName : String) : Except String LayoutDocument :=
  match files layoutName with
  | none => Except.error ("Layout file not found: " ++ layoutName)
  | some none => Except.error ("Failed to parse layout file " ++ layoutName)
  | some (some layoutData) => Except.ok layoutData

/-- A layout document with two independent validation errors: an
unregistered component type and an out-of-bounds placement. -/
def twoErrorDoc : LayoutDocument :=
  { name := "bad", description := "two independent errors",
    grid := ⟨2, 2, 10, 5⟩,
    components :=
      [{ type := "bogus", position := ⟨0, 0, 1, 1⟩, config := [] },
       { type := "clock", position := ⟨5, 0, 1, 1⟩, config := [] }] }

/-- A layouts directory containing exactly the two-error document under the
name `bad`. -/
def twoErrorStore : String → Option (Option LayoutDocument) :=
  fun n => if n = "bad" then some (some twoErrorDoc) else none

/-- C2 counterexample: `loadLayout` applied to a document with 2 independent
validation errors (an unknown component type and an out-of-bounds
placement) returns the document successfully and reports none of the 2
errors — so it does not return a validation result listing all of them. -/
theorem loadLayout_no_validation_counterexample :
    (validationErrors twoErrorDoc).length = 2 ∧
    loadLayout twoErrorStore "bad" = Except.ok twoErrorDoc := by
  constructor <;> rfl

/-- C2 (amended). `loadLayout` performs no component validation at all:
whenever the layout file parses, the document is returned unchanged via
`Except.ok`, regardless of how many validation errors it contains; the only
failures `loadLayout` reports are a missing file and a JSON parse error,
one at a time, by throwing. -/
theorem loadLayout_returns_unvalidated
    (files : String → Option (Option LayoutDocument)) (layoutName : String)
    (doc : LayoutDocument) (h : files layoutName = some (some doc)) :
    loadLayout files layoutName = Except.ok doc := by
  unfold loadLayout
  rw [h]

/-- C2 witness: the amended loader behaviour on the concrete two-error
document. -/
theorem loadLayout_returns_unvalidated_witness :
    loadLayout twoErrorStore "bad" = Except.ok twoErrorDoc :=
  loadLayout_returns_unvalidated twoErrorStore "bad" twoErrorDoc (by rfl)

/-- C10 witness: the frame property evaluated on the concrete one-component
pokemon layout at index 0. -/
theorem enrichLayoutWithData_frame_witness :
    ∃ h2 : 0 < (enrichLayoutWithData pokemonLayoutExample Value.null Value.null
        samplePokemonValue).components.length,
      ((pokemonLayoutExample.components.get ⟨0, by decide⟩).type ≠ "device-stats" →
        (pokemonLayoutExample.components.get ⟨0, by decide⟩).type ≠ "weather" →
        (pokemonLayoutExample.components.get ⟨0, by decide⟩).type ≠ "pokemon-sprite" →
        (enrichLayoutWithData pokemonLayoutExample Value.null Value.null
            samplePokemonValue).components.get ⟨0, h2⟩ =
          pokemonLayoutExample.components.get ⟨0, by decide⟩) ∧
      ((enrichLayoutWithData pokemonLayoutExample Value.null Value.null
          samplePokemonValue).components.get ⟨0, h2⟩).type =
        (pokemonLayoutExample.components.get ⟨0, by decide⟩).type ∧
      ((enrichLayoutWithData pokemonLayoutExample Value.null Value.null
          samplePokemonValue).components.get ⟨0, h2⟩).position =
        (pokemonLayoutExample.components.get ⟨0, by decide⟩).position ∧
      ((pokemonLayoutExample.components.get ⟨0, by decide⟩).type = "device-stats" →
        ∀ k : String, k ≠ "deviceStats" →
          lookupKey ((enrichLayoutWithData pokemonLayoutExample Value.null Value.null
            samplePokemonValue).components.get ⟨0, h2⟩).config k =
            lookupKey (pokemonLayoutExample.components.get ⟨0, by decide⟩).config k) ∧
      ((pokemonLayoutExample.components.get ⟨0, by decide⟩).type = "weather" →
        ∀ k : String, k ≠ "weatherData" →
          lookupKey ((enrichLayoutWithData pokemonLayoutExample Value.null Value.null
            samplePokemonValue).components.get ⟨0, h2⟩).config k =
            lookupKey (pokemonLayoutExample.components.get ⟨0, by decide⟩).config k) ∧
      ((pokemonLayoutExample.components.get ⟨0, by decide⟩).type = "pokemon-sprite" →
        ∀ k : String, k ≠ "pokemonData" →
          lookupKey ((enrichLayoutWithData pokemonLayoutExample Value.null Value.null
            samplePokemonValue).components.get ⟨0, h2⟩).config k =
            lookupKey (pokemonLayoutExample.components.get ⟨0, by decide⟩).config k) :=
  enrichLayoutWithData_frame pokemonLayoutExample Value.null Value.null
    samplePokemonValue 0 (by decide)

/-- A wall-clock reading: the one intentionally time-varying input of the
render phase. -/
structure Clock where
  year : ℕ
  month : ℕ
  day : ℕ
  hour : ℕ
  minute : ℕ
  second : ℕ
deriving DecidableEq, Repr

/-- Two-digit zero padding for time fields. -/
def pad2 (n : ℕ) : String :=
  if n < 10 then "0" ++ toString n else toString n

/-- The `HH:mm:ss` form of a wall-clock reading. -/
def timeString (now : Clock) : String :=
  pad2 now.hour ++ ":" ++ pad2 now.minute ++ ":" ++ pad2 now.second

/-- The value of `cfg[k]` read as a boolean, `false` when absent or not a
boolean (JavaScript truthiness of a missing option). -/
def getBool (cfg : Config) (k : String) : Bool :=
  match lookupKey cfg k with
  | some (Value.bool b) => b
  | _ => false

/-- The value of `cfg[k]` read as a string, empty when absent. -/
def getStr (cfg : Config) (k : String) : String :=
  match lookupKey cfg k with
  | some (Value.str s) => s
  | _ => ""

/-- The value of `cfg[k]` read as a list of strings, empty when absent. -/
def getStrList (cfg : Config) (k : String) : List String :=
  match lookupKey cfg k with
  | some (Value.strList xs) => xs
  | _ => []

/-- Modelled from the spec: the clock component's content — the current
time, with a seconds line when `showSeconds` is set. -/
def clockContent (now : Clock) (cfg : Config) : String :=
  if getBool cfg "showSeconds" then timeString now
  else pad2 now.hour ++ ":" ++ pad2 now.minute

/-- Modelled from the spec: the date component's content — the formatted
current date. -/
def dateContent (now : Clock) (cfg : Config) : String :=
  toString now.year ++ "-" ++ pad2 now.month ++ "-" ++ pad2 now.day ++
    (if getBool cfg "showDayOfYear" then " (day of year shown)" else "")

/-- Modelled from the spec: the stats component's content — a title, then a
generation-time line when `showGenerated` is set, conditional timezone and
resolution lines, and the custom stats verbatim. -/
def statsContent (now : Clock) (cfg : Config) : String :=
  String.intercalate "; "
    ([getStr cfg "title"] ++
     (if getBool cfg "showGenerated" then ["Generated: " ++ timeString now] else []) ++
     (if getBool cfg "showTimezone" then ["Timezone: local"] else []) ++
     (if getBool cfg "showResolution" then ["Resolution: 600x800"] else []) ++
     getStrList cfg "customStats")

/-- Modelled from the spec: the weather component's content — the injected
weather data formatted into lines, degrading to a placeholder string when
the data is absent or `null`. -/
def weatherContent (cfg : Config) : String :=
  match lookupKey cfg "weatherData" with
  | some (Value.weather w) =>
    "Temp: " ++ toString w.temperature ++ " " ++ w.condition ++ "; " ++
      String.intercalate "; " w.forecast
  | _ => "Weather data unavailable"

/-- Modelled from the spec: the device-stats component's content — the
injected statistics formatted into lines, degrading to a placeholder when
the data is absent or `null`. -/
def deviceStatsContent (cfg : Config) : String :=
  match lookupKey cfg "deviceStats" with
  | some (Value.device d) =>
    "Battery: " ++ d.battery ++ "; WiFi: " ++ d.wifi ++ "; Uptime: " ++ d.uptime
  | _ => "Device stats unavailable"

/-- Modelled from the spec: the pokemon-sprite component's content — the
sprite with its id label, a caption-only fallback when the sprite path is
missing, and a placeholder when no data was injected. -/
def pokemonSpriteContent (cfg : Config) : String :=
  match lookupKey cfg "pokemonData" with
  | some (Value.pokemon pd) =>
    match pd.spritePath with
    | some sp => "sprite " ++ sp ++ " #" ++ toString pd.id ++ " " ++ pd.name
    | none => "Pokemon #" ++ toString pd.id
  | _ => "Pokemon unavailable"

/-- Modelled from the spec: the title component's content. -/
def titleContent (cfg : Config) : String :=
  getStr cfg "text"

/-- Modelled from the spec: variant-specific content drawing, dispatched on
the component's type tag.  A data-dependent component whose data is missing
renders a placeholder instead of failing, so content rendering is total:
the catch-and-degrade policy of the orchestrator. -/
def renderContent (now : Clock) (c : Component) : String :=
  if c.type = "clock" then clockContent now c.config
  else if c.type = "date" then dateContent now c.config
  else if c.type = "stats" then statsContent now c.config
  else if c.type = "title" then titleContent c.config
  else if c.type = "weather" then weatherContent c.config
  else if c.type = "device-stats" then deviceStatsContent c.config
  else if c.type = "pokemon-sprite" then pokemonSpriteContent c.config
  else ""

/-- One component's contribution to the raster surface: its resolved bounds
and its drawn content. -/
structure Draw where
  bounds : Bounds
  content : String
deriving DecidableEq, Repr

/-- The raster surface: canvas size, background fill and the component
draws in declaration order. -/
structure Surface where
  width : ℚ
  height : ℚ
  background : String
  draws : List Draw
deriving DecidableEq, Repr

/-- Modelled from the spec: one render pass over the component list —
resolve each component's bounds through the grid system and draw its
content, in declaration order. -/
def renderDraws (now : Clock) (g : GridSpec) (W H : ℚ) :
    List Component → Except LayoutError (List Draw)
  | [] => Except.ok []
  | c :: cs =>
    match computeBounds g W H c.position with
    | Except.error e => Except.error e
    | Except.ok b =>
      match renderDraws now g W H cs with
      | Except.error e => Except.error e
      | Except.ok ds => Except.ok ({ bounds := b, content := renderContent now c } :: ds)

/-- Modelled from the spec: `DashboardEngine.render` — allocate a blank
surface of the canvas size filled with the background color, then render
the components in declaration order; a layout-definition error aborts
before anything is emitted. -/
def renderLayout (now : Clock) (W H : ℚ) (doc : LayoutDocument) :
    Except LayoutError Surface :=
  match renderDraws now doc.grid W H doc.components with
  | Except.error e => Except.error e
  | Except.ok ds =>
    Except.ok { width := W, height := H, background := "#FFFFFF", draws := ds }

/-- Equality of render results (ok surface or layout error) is decidable,
so concrete render runs can be compared by evaluation. -/
instance exceptDecidableEq {ε α : Type} [DecidableEq ε] [DecidableEq α] :
    DecidableEq (Except ε α) := fun a b =>
  match a, b with
  | Except.ok x, Except.ok y =>
    match decEq x y with
    | isTrue h => isTrue (by rw [h])
    | isFalse h => isFalse (fun hh => h (Except.ok.inj hh))
  | Except.error x, Except.error y =>
    match decEq x y with
    | isTrue h => isTrue (by rw [h])
    | isFalse h => isFalse (fun hh => h (Except.error.inj hh))
  | Except.ok _, Except.error _ => isFalse (fun hh => Except.noConfusion hh)
  | Except.error _, Except.ok _ => isFalse (fun hh => Except.noConfusion hh)

/-- The outcome of the three conditional external fetches of
`generateDashboard`: each either resolves to a value or fails with a
message. -/
structure FetchResults where
  deviceStats : Except String Value
  weather : Except String Value
  pokemon : Except String Value

/-- The generator's per-fetch error containment: a failed fetch is logged
and replaced by `null`. -/
def fetchValueOrNull : Except String Value → Value
  | Except.ok v => v
  | Except.error _ => Value.null

/-- Whether the layout declares at least one component of the given type
(the generator's `components.some(...)` checks). -/
def hasComponentType (doc : LayoutDocument) (t : String) : Bool :=
  doc.components.any (fun c => c.type = t)

/-- Observable events of one generation run, in execution order. -/
inductive Event where
  | fetchCompleted (kind : String)
  | renderInvoked
deriving DecidableEq, Repr

/-- Translated from `FlexibleDashboardGenerator.generateDashboard`: fetch
device stats, weather and Pokemon data — each only when a component of the
corresponding type is declared, each awaited in turn, each failure replaced
by `null` — then enrich the layout with the fetched data and render it.
The second result is the run's event trace: each conditional fetch
completes, in the order the code awaits them, before render is invoked. -/
def generateDashboard (fr : FetchResults) (now : Clock) (doc : LayoutDocument) :
    Except LayoutError Surface × List Event :=
  let deviceStatsData :=
    if hasComponentType doc "device-stats" then fetchValueOrNull fr.deviceStats
    else Value.null
  let weatherData :=
    if hasComponentType doc "weather" then fetchValueOrNull fr.weather
    else Value.null
  let pokemonData :=
    if hasComponentType doc "pokemon-sprite" then fetchValueOrNull fr.pokemon
    else Value.null
  let trace :=
    (if hasComponentType doc "device-stats" then [Event.fetchCompleted "device-stats"]
      else []) ++
    (if hasComponentType doc "weather" then [Event.fetchCompleted "weather"]
      else []) ++
    (if hasComponentType doc "pokemon-sprite" then [Event.fetchCompleted "pokemon"]
      else []) ++
    [Event.renderInvoked]
  (renderLayout now 600 800 (enrichLayoutWithData doc deviceStatsData weatherData pokemonData),
    trace)

/-- C8. In every generation run the event trace ends with the render
invocation: every required fetch (one per data-component type declared by
the layout) has completed strictly before render is invoked, and no render
event occurs earlier in the trace. -/
theorem generateDashboard_fetches_before_render (fr : FetchResults) (now : Clock)
    (doc : LayoutDocument) :
    ∃ pre : List Event,
      (generateDashboard fr now doc).2 = pre ++ [Event.renderInvoked] ∧
      Event.renderInvoked ∉ pre ∧
      (hasComponentType doc "device-stats" = true →
        Event.fetchCompleted "device-stats" ∈ pre) ∧
      (hasComponentType doc "weather" = true →
        Event.fetchCompleted "weather" ∈ pre) ∧
      (hasComponentType doc "pokemon-sprite" = true →
        Event.fetchCompleted "pokemon" ∈ pre) := by
  refine ⟨(if hasComponentType doc "device-stats" then
      [Event.fetchCompleted "device-stats"] else []) ++
    (if hasComponentType doc "weather" then [Event.fetchCompleted "weather"] else []) ++
    (if hasComponentType doc "pokemon-sprite" then [Event.fetchCompleted "pokemon"]
      else []), ?_, ?_, ?_, ?_, ?_⟩
  · simp [generateDashboard]
  · split_ifs <;> simp
  · intro h
    simp [h]
  · intro h
    simp [h]
  · intro h
    simp [h]

/-- A layout declaring all three data-dependent component types, used to
evaluate the orchestration theorems on concrete input. -/
def fullFetchDoc : LayoutDocument :=
  { name := "weather-pokemon", description := "all data components",
    grid := ⟨12, 8, 15, 8⟩,
    components :=
      [{ type := "weather", position := ⟨3, 0, 5, 8⟩, config := [] },
       { type := "device-stats", position := ⟨9, 0, 2, 4⟩, config := [] },
       { type := "pokemon-sprite", position := ⟨1, 6, 3, 2⟩, config := [] }] }

/-- A concrete fetch outcome: device stats resolve, the weather fetch
fails, the Pokemon fetch resolves. -/
def sampleFetchResults : FetchResults :=
  { deviceStats := Except.ok (Value.device ⟨"85%", "connected", "12.5h"⟩),
    weather := Except.error "Open-Meteo request timed out",
    pokemon := Except.ok samplePokemonValue }

/-- A fixed wall-clock reading for concrete evaluations. -/
def morningClock : Clock := ⟨2025, 11, 12, 8, 0, 0⟩

/-- C8 witness: the fetch-before-render trace property evaluated on the
concrete three-component layout. -/
theorem generateDashboard_fetches_before_render_witness :
    ∃ pre : List Event,
      (generateDashboard sampleFetchResults morningClock fullFetchDoc).2 =
        pre ++ [Event.renderInvoked] ∧
      Event.renderInvoked ∉ pre ∧
      (hasComponentType fullFetchDoc "device-stats" = true →
        Event.fetchCompleted "device-stats" ∈ pre) ∧
      (hasComponentType fullFetchDoc "weather" = true →
        Event.fetchCompleted "weather" ∈ pre) ∧
      (hasComponentType fullFetchDoc "pokemon-sprite" = true →
        Event.fetchCompleted "pokemon" ∈ pre) :=
  generateDashboard_fetches_before_render sampleFetchResults morningClock fullFetchDoc

theorem renderDraws_ok (now : Clock) (g : GridSpec) (W H : ℚ) (l : List Component)
    (h : ∀ c ∈ l, placementInBounds g c.position = true) :
    ∃ ds : List Draw, renderDraws now g W H l = Except.ok ds ∧
      ds.length = l.length ∧
      ∀ i : ℕ, ∀ hi : i < l.length, ∀ hd : i < ds.length,
        (ds.get ⟨i, hd⟩).content = renderContent now (l.get ⟨i, hi⟩) := by
  induction l with
  | nil =>
    refine ⟨[], rfl, rfl, ?_⟩
    intro i hi
    exact absurd hi (by simp)
  | cons c cs ih =>
    have hc := h c (List.mem_cons_self c cs)
    obtain ⟨ds, hds, hlen, hcontent⟩ :=
      ih (fun x hx => h x (List.mem_cons_of_mem c hx))
    obtain ⟨b, hb⟩ : ∃ b, computeBounds g W H c.position = Except.ok b :=
      ⟨_, computeBounds_ok g W H c.position hc⟩
    refine ⟨{ bounds := b, content := renderContent now c } :: ds, ?_, by simp [hlen], ?_⟩
    · unfold renderDraws
      rw [hb, hds]
    · intro i hi hd
      cases i with
      | zero => rfl
      | succ n =>
        simp only [List.get_eq_getElem, List.getElem_cons_succ]
        have hn : n < cs.length := by simpa using hi
        have hn2 : n < ds.length := by simpa using hd
        simpa using hcontent n hn hn2

theorem weatherContent_null (cfg : Config) :
    weatherContent (objSet cfg "weatherData" Value.null) =
      "Weather data unavailable" := by
  unfold weatherContent
  rw [lookupKey_objSet_self]

theorem renderContent_weather_eq (now : Clock) (c : Component)
    (h : c.type = "weather") :
    renderContent now c = weatherContent c.config := by
  simp [renderContent, h]

theorem enrichComponent_weather_config (d w p : Value) (c : Component)
    (h : c.type = "weather") :
    enrichComponent d w p c = { c with config := objSet c.config "weatherData" w } := by
  unfold enrichComponent
  rw [h]
  simp

theorem renderLayout_weather_placeholder (now : Clock) (doc : LayoutDocument)
    (dV pV : Value) (i : ℕ)
    (hval : ∀ c ∈ doc.components, placementInBounds doc.grid c.position = true)
    (hi : i < doc.components.length)
    (hw : doc.components[i].type = "weather") :
    ∃ s : Surface,
      renderLayout now 600 800 (enrichLayoutWithData doc dV Value.null pV) =
        Except.ok s ∧
      s.draws.length = doc.components.length ∧
      ∃ hd : i < s.draws.length,
        (s.draws.get ⟨i, hd⟩).content = "Weather data unavailable" := by
  have hvalE : ∀ c ∈ (enrichLayoutWithData doc dV Value.null pV).components,
      placementInBounds (enrichLayoutWithData doc dV Value.null pV).grid
        c.position = true := by
    intro c hcm
    simp only [enrichLayoutWithData] at hcm ⊢
    obtain ⟨c0, hc0, rfl⟩ := List.mem_map.mp hcm
    rw [enrichComponent_position]
    exact hval c0 hc0
  obtain ⟨ds, hds, hlen, hcontent⟩ :=
    renderDraws_ok now (enrichLayoutWithData doc dV Value.null pV).grid 600 800
      (enrichLayoutWithData doc dV Value.null pV).components hvalE
  have hElen : (enrichLayoutWithData doc dV Value.null pV).components.length =
      doc.components.length := by
    simp [enrichLayoutWithData]
  have hsurf : renderLayout now 600 800 (enrichLayoutWithData doc dV Value.null pV) =
      Except.ok ⟨600, 800, "#FFFFFF", ds⟩ := by
    unfold renderLayout
    rw [hds]
  refine ⟨⟨600, 800, "#FFFFFF", ds⟩, hsurf, by simp [hlen, hElen], ?_⟩
  have hd : i < ds.length := by omega
  refine ⟨hd, ?_⟩
  have hiE : i < (enrichLayoutWithData doc dV Value.null pV).components.length := by
    omega
  have hcw := hcontent i hiE hd
  simp only [enrichLayoutWithData, List.get_eq_getElem, List.getElem_map] at hcw
  show (ds.get ⟨i, hd⟩).content = _
  simp only [List.get_eq_getElem]
  rw [hcw, enrichComponent_weather_config dV Value.null pV doc.components[i] hw,
    renderContent_weather_eq _ _ (by simpa using hw)]
  exact weatherContent_null _

/-- C3. Weather fallback is non-fatal: for every layout with in-bounds
placements that declares a weather component, if the weather fetch fails
then generation still returns a complete surface (one draw per declared
component) in which that component's region shows the placeholder content;
the per-component failure is never surfaced to the caller as an error. -/
theorem generateDashboard_weather_fallback (fr : FetchResults) (now : Clock)
    (doc : LayoutDocument) (i : ℕ) (msg : String)
    (hval : ∀ c ∈ doc.components, placementInBounds doc.grid c.position = true)
    (hi : i < doc.components.length)
    (hw : (doc.components.get ⟨i, hi⟩).type = "weather")
    (hf : fr.weather = Except.error msg) :
    ∃ s : Surface, (generateDashboard fr now doc).1 = Except.ok s ∧
      s.draws.length = doc.components.length ∧
      ∃ hd : i < s.draws.length,
        (s.draws.get ⟨i, hd⟩).content = "Weather data unavailable" := by
  simp only [List.get_eq_getElem] at hw
  have hasW : hasComponentType doc "weather" = true := by
    unfold hasComponentType
    rw [List.any_eq_true]
    exact ⟨doc.components[i], List.getElem_mem hi, by simp [hw]⟩
  have hgen : (generateDashboard fr now doc).1 =
      renderLayout now 600 800
        (enrichLayoutWithData doc
          (if hasComponentType doc "device-stats" then fetchValueOrNull fr.deviceStats
            else Value.null)
          Value.null
          (if hasComponentType doc "pokemon-sprite" then fetchValueOrNull fr.pokemon
            else Value.null)) := by
    simp [generateDashboard, hasW, hf, fetchValueOrNull]
  rw [hgen]
  exact renderLayout_weather_placeholder now doc _ _ i hval hi hw

/-- A layout with a single in-bounds weather component, for concrete
evaluation of the fallback property. -/
def weatherOnlyDoc : LayoutDocument :=
  { name := "weather", description := "one weather tile",
    grid := ⟨2, 2, 10, 5⟩,
    components := [{ type := "weather", position := ⟨0, 0, 1, 1⟩, config := [] }] }

/-- C3 witness: a failed weather fetch on the concrete one-component weather
layout still yields a complete surface with placeholder content. -/
theorem generateDashboard_weather_fallback_witness :
    ∃ s : Surface,
      (generateDashboard sampleFetchResults morningClock weatherOnlyDoc).1 =
        Except.ok s ∧
      s.draws.length = weatherOnlyDoc.components.length ∧
      ∃ hd : 0 < s.draws.length,
        (s.draws.get ⟨0, hd⟩).content = "Weather data unavailable" :=
  generateDashboard_weather_fallback sampleFetchResults morningClock weatherOnlyDoc 0
    "Open-Meteo request timed out" (by decide) (by decide) (by decide) rfl

/-- A layout whose only component is a stats tile with the
generation-time line enabled — no clock and no date component. -/
def generatedStatsDoc : LayoutDocument :=
  { name := "stats", description := "stats with generation time",
    grid := ⟨2, 2, 10, 5⟩,
    components :=
      [{ type := "stats", position := ⟨0, 0, 1, 1⟩,
         config := [("title", Value.str "SYSTEM"),
                    ("showGenerated", Value.bool true)] }] }

/-- A second wall-clock reading, later the same day. -/
def eveningClock : Clock := ⟨2025, 11, 12, 20, 30, 0⟩

/-- The drawn contents of a render result, ignoring pixel geometry. -/
def drawContents (r : Except LayoutError Surface) : List String :=
  match r with
  | Except.ok s => s.draws.map Draw.content
  | Except.error _ => []

/-- C4 counterexample: a layout without clock or date components, rendered
twice with identical injected data and canvas size, produces different
output — the stats component's `showGenerated` line embeds the wall-clock
generation time, so excluding only clock/date components does not make
rendering a pure two-run property. -/
theorem renderLayout_two_runs_differ_counterexample :
    renderLayout morningClock 600 800 generatedStatsDoc ≠
      renderLayout eveningClock 600 800 generatedStatsDoc := by
  intro hEq
  have h1 : drawContents (renderLayout morningClock 600 800 generatedStatsDoc) =
      ["SYSTEM; Generated: 08:00:00"] := rfl
  rw [hEq] at h1
  have h2 : drawContents (renderLayout eveningClock 600 800 generatedStatsDoc) =
      ["SYSTEM; Generated: 20:30:00"] := rfl
  rw [h2] at h1
  exact absurd h1 (by decide)

theorem renderContent_time_independent_of (c : Component) (t1 t2 : Clock)
    (h1 : c.type ≠ "clock") (h2 : c.type ≠ "date")
    (h3 : c.type = "stats" → getBool c.config "showGenerated" = false) :
    renderContent t1 c = renderContent t2 c := by
  unfold renderContent
  rw [if_neg h1, if_neg h1, if_neg h2, if_neg h2]
  by_cases hs : c.type = "stats"
  · rw [if_pos hs, if_pos hs]
    unfold statsContent
    rw [h3 hs]
    simp
  · rw [if_neg hs, if_neg hs]

theorem renderDraws_time_independent (g : GridSpec) (W H : ℚ)
    (l : List Component)
    (h : ∀ c ∈ l, c.type ≠ "clock" ∧ c.type ≠ "date" ∧
      (c.type = "stats" → getBool c.config "showGenerated" = false))
    (t1 t2 : Clock) :
    renderDraws t1 g W H l = renderDraws t2 g W H l := by
  induction l with
  | nil => rfl
  | cons c cs ih =>
    obtain ⟨h1, h2, h3⟩ := h c (List.mem_cons_self c cs)
    unfold renderDraws
    rw [renderContent_time_independent_of c t1 t2 h1 h2 h3,
      ih (fun x hx => h x (List.mem_cons_of_mem c hx))]

/-- C4 (amended). Rendering is deterministic across runs for any validated
layout that contains no clock component, no date component and no stats
component with `showGenerated` enabled: with identical injected data and
identical canvas size, the rendered surfaces of two invocations at any two
wall-clock instants are identical. -/
theorem renderLayout_time_independent (doc : LayoutDocument) (W H : ℚ)
    (h : ∀ c ∈ doc.components, c.type ≠ "clock" ∧ c.type ≠ "date" ∧
      (c.type = "stats" → getBool c.config "showGenerated" = false))
    (t1 t2 : Clock) :
    renderLayout t1 W H doc = renderLayout t2 W H doc := by
  unfold renderLayout
  rw [renderDraws_time_independent doc.grid W H doc.components h t1 t2]

/-- A layout with a title and a weather component carrying injected data:
no time-reading content at all. -/
def titleWeatherDoc : LayoutDocument :=
  { name := "tw", description := "title and weather",
    grid := ⟨2, 2, 10, 5⟩,
    components :=
      [{ type := "title", position := ⟨0, 0, 1, 2⟩,
         config := [("text", Value.str "WEATHER DASHBOARD")] },
       { type := "weather", position := ⟨1, 0, 1, 2⟩,
         config := [("weatherData",
           Value.weather ⟨49, "Overcast", ["Sat 55/45", "Sun 56/42"]⟩)] }] }

/-- C4 witness: the amended determinism property evaluated on a concrete
clock-free layout at two different wall-clock instants. -/
theorem renderLayout_time_independent_witness :
    renderLayout morningClock 600 800 titleWeatherDoc =
      renderLayout eveningClock 600 800 titleWeatherDoc :=
  renderLayout_time_independent titleWeatherDoc 600 800 (by decide)
    morningClock eveningClock

/-- The two inputs of the daily-Pokemon computation that the source reads
off its `Date` argument: calendar year and day of year. -/
structure SimpleDate where
  year : ℕ
  dayOfYear : ℕ
deriving DecidableEq, Repr

/-- Translated from `PokemonService.getDailyPokemonId`: seed the id with
`year * 1000 + dayOfYear` and reduce it to `(seed % maxPokemonId) + 1`.
The source derives `dayOfYear` from the millisecond difference to Dec 31 of
the previous year; here the date argument is abstracted to the two
quantities the function reads, its year and its day of year. -/
def getDailyPokemonId (maxPokemonId : ℕ) (d : SimpleDate) : ℕ :=
  (d.year * 1000 + d.dayOfYear) % maxPokemonId + 1

/-- C9. `getDailyPokemonId` is a deterministic pure function of the date:
two dates with the same year and day of year give the same id; the id
always lies in `1 .. maxPokemonId` (default 151); and it equals
`((year*1000 + dayOfYear) % maxPokemonId) + 1`. -/
theorem getDailyPokemonId_deterministic_in_range (maxPokemonId : ℕ)
    (d1 d2 : SimpleDate) (hmax : 0 < maxPokemonId)
    (hy : d1.year = d2.year) (hd : d1.dayOfYear = d2.dayOfYear) :
    getDailyPokemonId maxPokemonId d1 = getDailyPokemonId maxPokemonId d2 ∧
    1 ≤ getDailyPokemonId maxPokemonId d1 ∧
    getDailyPokemonId maxPokemonId d1 ≤ maxPokemonId ∧
    getDailyPokemonId maxPokemonId d1 =
      (d1.year * 1000 + d1.dayOfYear) % maxPokemonId + 1 := by
  refine ⟨?_, ?_, ?_, rfl⟩
  · unfold getDailyPokemonId
    rw [hy, hd]
  · unfold getDailyPokemonId
    omega
  · unfold getDailyPokemonId
    have := Nat.mod_lt (d1.year * 1000 + d1.dayOfYear) hmax
    omega

/-- C9 witness: the test suite's date, Nov 12 2025 (day of year 316), with
the default Gen-1 bound of 151. -/
theorem getDailyPokemonId_deterministic_in_range_witness :
    getDailyPokemonId 151 ⟨2025, 316⟩ = getDailyPokemonId 151 ⟨2025, 316⟩ ∧
    1 ≤ getDailyPokemonId 151 ⟨2025, 316⟩ ∧
    getDailyPokemonId 151 ⟨2025, 316⟩ ≤ 151 ∧
    getDailyPokemonId 151 ⟨2025, 316⟩ = (2025 * 1000 + 316) % 151 + 1 :=
  getDailyPokemonId_deterministic_in_range 151 ⟨2025, 316⟩ ⟨2025, 316⟩
    (by decide) rfl rfl

end EInk
